import Mathlib

/-!
Shallow embedding of `src/app/main.py` (a FastAPI service exposing
`GET /`, `GET /get_info` and `GET /metrics` with a Prometheus client
registry), together with proofs of the specification claims.

Modelling conventions:
* Python floats (psutil percentages, `time.time()`) are modelled as `ℚ`.
* The process environment is an explicit `Env` record of `Option String`
  values plus the hostname; `os.getenv(k, d)` becomes `Option.getD`.
* The Prometheus registry (the module-level `Counter`/`Gauge` objects) is a
  `Registry` record threaded through every handler; each handler is a
  function `... → Registry → Registry × <response>`.
* OS statistic sampling calls can raise in Python; they are modelled as
  `Except String` values supplied to the `/metrics` handler, which consumes
  them strictly in the source order and stops at the first error, exactly as
  uncaught exception propagation does.
* `generate_latest` is modelled as the text exposition (format 0.0.4) of the
  seven metrics this app registers, with the prometheus_client name munging
  for counters (a counter named `n` is exposed as `n_total`; a name already
  ending in `_total` is kept).  The default process/GC collector families and
  the `_created` series are omitted: no claim mentions them, and every claim
  about the body is a "contains" claim.  Python's float rendering of gauge
  values is abstracted by `toString` on `ℚ`; counter values (integers) are
  rendered as Python renders integral floats (`"3.0"`).
-/

namespace MinikubePilot

/-- The Prometheus registry state of the app: the two counters declared as
`REQUEST_COUNT` and `REQUEST_COUNT_PER_VERSION` (the latter is labelled by
`version`, modelled as an association list in label-creation order, which is
how the python client stores and exposes child series), and the five gauges. -/
structure Registry where
  get_info_requests_total : Nat
  get_info_requests_total_by_version : List (String × Nat)
  cpu_usage_percent : ℚ
  memory_usage_percent : ℚ
  uptime_seconds : ℚ
  thread_count : ℚ
  disk_usage_percent : ℚ
deriving Repr, DecidableEq

/-- Registry at process start: counters at zero with no labelled children yet,
gauges at the prometheus client default of 0. -/
def initialRegistry : Registry :=
  { get_info_requests_total := 0
    get_info_requests_total_by_version := []
    cpu_usage_percent := 0
    memory_usage_percent := 0
    uptime_seconds := 0
    thread_count := 0
    disk_usage_percent := 0 }

/-- Process environment visible to a `/get_info` request: the two optional
environment variables read by the handler, and `socket.gethostname()`. -/
structure Env where
  APP_TITLE : Option String
  APP_VERSION : Option String
  hostname : String

/-- `Counter.labels(version=v).inc()`: bump the child series for label value
`v`, creating it (at the end, i.e. in first-use order) when absent. -/
def labelsInc : List (String × Nat) → String → List (String × Nat)
  | [], v => [(v, 1)]
  | (k, n) :: rest, v =>
      if k = v then (k, n + 1) :: rest else (k, n) :: labelsInc rest v

/-- Current value of the child series for label value `v` (0 when the series
does not exist yet, which is what an increment starts from). -/
def counterValue : List (String × Nat) → String → Nat
  | [], _ => 0
  | (k, n) :: rest, v => if k = v then n else counterValue rest v

/-- A JSON dict response as FastAPI produces it from a returned `dict`:
status 200 and an ordered list of key/value pairs (all values in this app are
strings, so the value type is `String`). -/
structure JsonResponse where
  status_code : Nat
  body : List (String × String)
deriving Repr, DecidableEq

/-- The `GET /get_info` handler: read `APP_TITLE` / `APP_VERSION` with their
defaults, increment both counters, return the three-key payload. -/
def get_info (env : Env) (r : Registry) : Registry × JsonResponse :=
  let app_title := env.APP_TITLE.getD "My FastAPI App"
  let app_version := env.APP_VERSION.getD "1.0"
  let r' : Registry :=
    { r with
      get_info_requests_total := r.get_info_requests_total + 1
      get_info_requests_total_by_version :=
        labelsInc r.get_info_requests_total_by_version app_version }
  (r',
    { status_code := 200
      body :=
        [("APP_VERSION", app_version),
         ("APP_TITLE", app_title),
         ("MESSAGE", "Hello from " ++ env.hostname)] })

/-- A Starlette redirect response: status code and `location` header target. -/
structure RedirectResponse where
  status_code : Nat
  url : String
deriving Repr, DecidableEq

/-- `RedirectResponse(url=u)` with no explicit `status_code` argument:
Starlette's default status code for `RedirectResponse` is 307. -/
def redirectResponse (url : String) : RedirectResponse :=
  { status_code := 307, url := url }

/-- The `GET /` handler: returns `RedirectResponse(url="/get_info")` and does
not touch the registry. -/
def root (r : Registry) : Registry × RedirectResponse :=
  (r, redirectResponse "/get_info")

/-- Python's float rendering of an integral counter value (`1` → `"1.0"`). -/
def floatOfNat (n : Nat) : String := toString n ++ ".0"

/-- Rendering of a gauge value.  Python prints the float; the digit-for-digit
float syntax is irrelevant to every claim, so the rational is rendered with
its own `toString`. -/
def gaugeStr (q : ℚ) : String := toString q

/-- The `# HELP` / `# TYPE` header lines the text exposition format emits for
one metric family. -/
def metricHeader (name mtype help : String) : String :=
  "# HELP " ++ name ++ " " ++ help ++ "\n" ++ "# TYPE " ++ name ++ " " ++ mtype ++ "\n"

/-- One exposed sample line of the labelled counter.  prometheus_client
appends `_total` to a counter name that does not already end in `_total`,
so the series name is `get_info_requests_total_by_version_total`. -/
def perVersionLine (v : String) (c : Nat) : String :=
  "get_info_requests_total_by_version_total\x7bversion=\"" ++ v ++ "\"\x7d "
    ++ floatOfNat c ++ "\n"

/-- Sample lines of the labelled counter, one per child series, in
label-creation order. -/
def perVersionSamples : List (String × Nat) → String
  | [] => ""
  | (v, c) :: rest => perVersionLine v c ++ perVersionSamples rest

/-- The exposition block of one gauge. -/
def gaugeBlock (name help : String) (q : ℚ) : String :=
  metricHeader name "gauge" help ++ name ++ " " ++ gaugeStr q ++ "\n"

/-- `generate_latest()` on this app's registry: the text exposition
(format 0.0.4) of the seven registered metrics, in registration order. -/
def generate_latest (r : Registry) : String :=
  metricHeader "get_info_requests_total" "counter"
      "Total number of GET /get_info requests"
    ++ "get_info_requests_total " ++ floatOfNat r.get_info_requests_total ++ "\n"
    ++ metricHeader "get_info_requests_total_by_version_total" "counter"
      "GET /get_info requests by app version"
    ++ perVersionSamples r.get_info_requests_total_by_version
    ++ gaugeBlock "cpu_usage_percent" "CPU usage percentage" r.cpu_usage_percent
    ++ gaugeBlock "memory_usage_percent" "Memory usage percentage" r.memory_usage_percent
    ++ gaugeBlock "uptime_seconds" "App uptime in seconds" r.uptime_seconds
    ++ gaugeBlock "thread_count" "Number of active threads" r.thread_count
    ++ gaugeBlock "disk_usage_percent" "Disk usage percentage" r.disk_usage_percent

/-- `prometheus_client.CONTENT_TYPE_LATEST`. -/
def CONTENT_TYPE_LATEST : String := "text/plain; version=0.0.4; charset=utf-8"

/-- The response `/metrics` builds on success. -/
structure MetricsResponse where
  status_code : Nat
  media_type : String
  body : String
deriving Repr, DecidableEq

/-- One scrape's worth of OS statistic samples, in the order the handler
performs the calls.  Each call may raise in Python, hence `Except`. -/
structure OsSample where
  cpu_percent : Except String ℚ
  virtual_memory_percent : Except String ℚ
  time_now : Except String ℚ
  active_count : Except String Nat
  disk_usage_percent : Except String ℚ

/-- An `OsSample` in which every call succeeds. -/
def OsSample.ok (cpu mem now : ℚ) (thr : Nat) (disk : ℚ) : OsSample :=
  { cpu_percent := .ok cpu
    virtual_memory_percent := .ok mem
    time_now := .ok now
    active_count := .ok thr
    disk_usage_percent := .ok disk }

/-- The `GET /metrics` handler.  Gauges are set strictly in source order
(CPU, memory, uptime, threads, disk); an exception from any sampling call is
not caught, so processing stops there with the registry as mutated so far and
no response value. -/
def metrics (startTime : ℚ) (s : OsSample) (r : Registry) :
    Registry × Except String MetricsResponse :=
  match s.cpu_percent with
  | .error e => (r, .error e)
  | .ok cpu =>
    let r := { r with cpu_usage_percent := cpu }
    match s.virtual_memory_percent with
    | .error e => (r, .error e)
    | .ok mem =>
      let r := { r with memory_usage_percent := mem }
      match s.time_now with
      | .error e => (r, .error e)
      | .ok now =>
        let r := { r with uptime_seconds := now - startTime }
        match s.active_count with
        | .error e => (r, .error e)
        | .ok thr =>
          let r := { r with thread_count := (thr : ℚ) }
          match s.disk_usage_percent with
          | .error e => (r, .error e)
          | .ok disk =>
            let r := { r with disk_usage_percent := disk }
            (r, .ok { status_code := 200
                      media_type := CONTENT_TYPE_LATEST
                      body := generate_latest r })

/-- The HTTP outcome of a request after the host framework has handled any
exception that escaped the handler. -/
structure HttpOutcome where
  status_code : Nat
  body : Option String
deriving Repr, DecidableEq

/-- `/metrics` as seen on the wire: FastAPI/Starlette turns an exception that
escapes the handler into a 500 response carrying none of the handler's
output. -/
def metricsHTTP (startTime : ℚ) (s : OsSample) (r : Registry) :
    Registry × HttpOutcome :=
  match metrics startTime s r with
  | (r', .ok resp) => (r', { status_code := 200, body := some resp.body })
  | (r', .error _) => (r', { status_code := 500, body := none })

/-- `True` exactly when some sampling call in `s` raises. -/
def OsSample.hasError (s : OsSample) : Prop :=
  (∃ e, s.cpu_percent = .error e) ∨ (∃ e, s.virtual_memory_percent = .error e) ∨
  (∃ e, s.time_now = .error e) ∨ (∃ e, s.active_count = .error e) ∨
  (∃ e, s.disk_usage_percent = .error e)

/-- `/get_info` applied `n` times in a row with one fixed environment,
returning the final registry (responses discarded). -/
def get_info_iter (env : Env) : Nat → Registry → Registry
  | 0, r => r
  | n + 1, r => get_info_iter env n (get_info env r).1

/-- `pat` occurs as a contiguous substring of `s`. -/
def substrOf (pat s : String) : Prop := ∃ a b : String, a ++ pat ++ b = s

theorem substrOf_refl (pat : String) : substrOf pat pat :=
  ⟨"", "", by simp⟩

theorem substrOf_appL (pat s t : String) (h : substrOf pat s) :
    substrOf pat (s ++ t) := by
  obtain ⟨a, b, hab⟩ := h
  exact ⟨a, b ++ t, by rw [← hab]; simp [String.append_assoc]⟩

theorem substrOf_appR (pat s t : String) (h : substrOf pat t) :
    substrOf pat (s ++ t) := by
  obtain ⟨a, b, hab⟩ := h
  exact ⟨s ++ a, b, by rw [← hab]; simp [String.append_assoc]⟩

theorem substrOf_trans (p s t : String) (h1 : substrOf p s) (h2 : substrOf s t) :
    substrOf p t := by
  obtain ⟨a, b, hab⟩ := h1
  obtain ⟨c, d, hcd⟩ := h2
  exact ⟨c ++ a, b ++ d, by rw [← hcd, ← hab]; simp [String.append_assoc]⟩

theorem metricHeader_substr (name mtype help : String) :
    substrOf name (metricHeader name mtype help) := by
  unfold metricHeader
  exact substrOf_appL _ _ _ (substrOf_appL _ _ _ (substrOf_appL _ _ _
    (substrOf_appL _ _ _ (substrOf_appL _ _ _ (substrOf_appL _ _ _
      (substrOf_appL _ _ _ (substrOf_appL _ _ _
        (substrOf_appR _ _ _ (substrOf_refl name)))))))))

theorem gaugeBlock_substr (name help : String) (q : ℚ) :
    substrOf name (gaugeBlock name help q) := by
  unfold gaugeBlock
  exact substrOf_trans _ _ _ (metricHeader_substr name "gauge" help)
    (substrOf_appL _ _ _ (substrOf_appL _ _ _ (substrOf_appL _ _ _
      (substrOf_appL _ _ _ (substrOf_refl _)))))

theorem counterValue_labelsInc_self (l : List (String × Nat)) (v : String) :
    counterValue (labelsInc l v) v = counterValue l v + 1 := by
  induction l with
  | nil => simp [labelsInc, counterValue]
  | cons p rest ih =>
    obtain ⟨k, n⟩ := p
    by_cases hk : k = v
    · simp [labelsInc, counterValue, hk]
    · simp [labelsInc, counterValue, hk, ih]

theorem counterValue_labelsInc_other (l : List (String × Nat)) (v w : String)
    (hw : w ≠ v) : counterValue (labelsInc l v) w = counterValue l w := by
  induction l with
  | nil => simp [labelsInc, counterValue, Ne.symm hw]
  | cons p rest ih =>
    obtain ⟨k, n⟩ := p
    by_cases hk : k = v
    · subst hk
      simp [labelsInc, counterValue, Ne.symm hw]
    · by_cases hkw : k = w
      · subst hkw
        simp [labelsInc, counterValue, hk]
      · simp [labelsInc, counterValue, hk, hkw, ih]

theorem counterValue_mem_labelsInc (l : List (String × Nat)) (v : String) :
    (v, counterValue (labelsInc l v) v) ∈ labelsInc l v := by
  induction l with
  | nil => simp [labelsInc, counterValue]
  | cons p rest ih =>
    obtain ⟨k, n⟩ := p
    by_cases hk : k = v
    · subst hk
      simp [labelsInc, counterValue]
    · simp only [labelsInc, counterValue, if_neg hk]
      exact List.mem_cons_of_mem _ ih

theorem perVersionSamples_substr (l : List (String × Nat)) (v : String) (c : Nat)
    (h : (v, c) ∈ l) : substrOf (perVersionLine v c) (perVersionSamples l) := by
  induction l with
  | nil => cases h
  | cons p rest ih =>
    obtain ⟨k, n⟩ := p
    rcases List.mem_cons.mp h with heq | hmem
    · obtain ⟨hv, hc⟩ := Prod.mk.injEq .. ▸ heq
      subst hv; subst hc
      exact substrOf_appL _ _ _ (substrOf_refl _)
    · exact substrOf_appR _ _ _ (ih hmem)

theorem generate_latest_substr_total (r : Registry) :
    substrOf "get_info_requests_total" (generate_latest r) := by
  unfold generate_latest
  exact substrOf_trans _ _ _ (metricHeader_substr _ "counter" _)
    (substrOf_appL _ _ _ (substrOf_appL _ _ _ (substrOf_appL _ _ _
      (substrOf_appL _ _ _ (substrOf_appL _ _ _ (substrOf_appL _ _ _
        (substrOf_appL _ _ _ (substrOf_appL _ _ _ (substrOf_appL _ _ _
          (substrOf_appL _ _ _ (substrOf_refl _)))))))))))

theorem generate_latest_substr_by_version (r : Registry) :
    substrOf "get_info_requests_total_by_version" (generate_latest r) := by
  unfold generate_latest
  refine substrOf_trans _ "get_info_requests_total_by_version_total" _
    ⟨"", "_total", by decide⟩ ?_
  exact substrOf_trans _ _ _ (metricHeader_substr _ "counter" _)
    (substrOf_appL _ _ _ (substrOf_appL _ _ _ (substrOf_appL _ _ _
      (substrOf_appL _ _ _ (substrOf_appL _ _ _ (substrOf_appL _ _ _
        (substrOf_appR _ _ _ (substrOf_refl _))))))))

theorem generate_latest_substr_perVersionLine (r : Registry) (v : String) (c : Nat)
    (h : (v, c) ∈ r.get_info_requests_total_by_version) :
    substrOf (perVersionLine v c) (generate_latest r) := by
  unfold generate_latest
  exact substrOf_trans _ _ _ (perVersionSamples_substr _ v c h)
    (substrOf_appL _ _ _ (substrOf_appL _ _ _ (substrOf_appL _ _ _
      (substrOf_appL _ _ _ (substrOf_appL _ _ _
        (substrOf_appR _ _ _ (substrOf_refl _)))))))

theorem generate_latest_substr_cpu (r : Registry) :
    substrOf "cpu_usage_percent" (generate_latest r) := by
  unfold generate_latest
  exact substrOf_trans _ _ _ (gaugeBlock_substr _ _ _)
    (substrOf_appL _ _ _ (substrOf_appL _ _ _ (substrOf_appL _ _ _
      (substrOf_appL _ _ _ (substrOf_appR _ _ _ (substrOf_refl _))))))

theorem generate_latest_substr_memory (r : Registry) :
    substrOf "memory_usage_percent" (generate_latest r) := by
  unfold generate_latest
  exact substrOf_trans _ _ _ (gaugeBlock_substr _ _ _)
    (substrOf_appL _ _ _ (substrOf_appL _ _ _ (substrOf_appL _ _ _
      (substrOf_appR _ _ _ (substrOf_refl _)))))

theorem generate_latest_substr_uptime (r : Registry) :
    substrOf "uptime_seconds" (generate_latest r) := by
  unfold generate_latest
  exact substrOf_trans _ _ _ (gaugeBlock_substr _ _ _)
    (substrOf_appL _ _ _ (substrOf_appL _ _ _
      (substrOf_appR _ _ _ (substrOf_refl _))))

theorem generate_latest_substr_thread (r : Registry) :
    substrOf "thread_count" (generate_latest r) := by
  unfold generate_latest
  exact substrOf_trans _ _ _ (gaugeBlock_substr _ _ _)
    (substrOf_appL _ _ _ (substrOf_appR _ _ _ (substrOf_refl _)))

theorem generate_latest_substr_disk (r : Registry) :
    substrOf "disk_usage_percent" (generate_latest r) := by
  unfold generate_latest
  exact substrOf_trans _ _ _ (gaugeBlock_substr _ _ _)
    (substrOf_appR _ _ _ (substrOf_refl _))

theorem get_info_iter_total (env : Env) (N : Nat) : ∀ r : Registry,
    (get_info_iter env N r).get_info_requests_total
      = r.get_info_requests_total + N := by
  induction N with
  | zero => intro r; rfl
  | succ n ih =>
    intro r
    show (get_info_iter env n (get_info env r).1).get_info_requests_total = _
    rw [ih]
    simp only [get_info]
    omega

theorem get_info_iter_version (env : Env) (N : Nat) : ∀ r : Registry,
    counterValue (get_info_iter env N r).get_info_requests_total_by_version
        (env.APP_VERSION.getD "1.0")
      = counterValue r.get_info_requests_total_by_version
          (env.APP_VERSION.getD "1.0") + N := by
  induction N with
  | zero => intro r; rfl
  | succ n ih =>
    intro r
    show counterValue
        (get_info_iter env n
          (get_info env r).1).get_info_requests_total_by_version _ = _
    rw [ih]
    simp only [get_info]
    rw [counterValue_labelsInc_self]
    omega

theorem metrics_preserves_counters (st : ℚ) (s : OsSample) (r : Registry) :
    (metrics st s r).1.get_info_requests_total = r.get_info_requests_total ∧
    (metrics st s r).1.get_info_requests_total_by_version
      = r.get_info_requests_total_by_version := by
  obtain ⟨cpu, mem, now, thr, disk⟩ := s
  cases cpu <;> cases mem <;> cases now <;> cases thr <;> cases disk <;>
    simp [metrics]

/-- C1: `GET /get_info` called `N` times with a fixed environment raises the
total counter by exactly `N` and the per-version child series for the active
version (`APP_VERSION` or its default `"1.0"`) by exactly `N`; and neither the
root handler nor the metrics handler changes either counter. -/
theorem get_info_counts_N (env : Env) (N : Nat) (r : Registry) :
    ((get_info_iter env N r).get_info_requests_total
        = r.get_info_requests_total + N) ∧
    (counterValue (get_info_iter env N r).get_info_requests_total_by_version
        (env.APP_VERSION.getD "1.0")
      = counterValue r.get_info_requests_total_by_version
          (env.APP_VERSION.getD "1.0") + N) ∧
    (∀ r' : Registry,
      (root r').1.get_info_requests_total = r'.get_info_requests_total ∧
      (root r').1.get_info_requests_total_by_version
        = r'.get_info_requests_total_by_version) ∧
    (∀ (st : ℚ) (s : OsSample) (r' : Registry),
      (metrics st s r').1.get_info_requests_total
        = r'.get_info_requests_total ∧
      (metrics st s r').1.get_info_requests_total_by_version
        = r'.get_info_requests_total_by_version) :=
  ⟨get_info_iter_total env N r, get_info_iter_version env N r,
   fun _ => ⟨rfl, rfl⟩, fun st s r' => metrics_preserves_counters st s r'⟩

/-- C2: every `/get_info` response has status 200, its body has exactly the
keys `APP_VERSION`, `APP_TITLE`, `MESSAGE` in that order, each key is mapped
to a (string, hence non-null) value, and `MESSAGE` is
`"Hello from " ++ hostname`. -/
theorem get_info_response_shape (env : Env) (r : Registry) :
    (get_info env r).2.status_code = 200 ∧
    (get_info env r).2.body.map Prod.fst
      = ["APP_VERSION", "APP_TITLE", "MESSAGE"] ∧
    ("APP_VERSION", env.APP_VERSION.getD "1.0") ∈ (get_info env r).2.body ∧
    ("APP_TITLE", env.APP_TITLE.getD "My FastAPI App")
      ∈ (get_info env r).2.body ∧
    ("MESSAGE", "Hello from " ++ env.hostname) ∈ (get_info env r).2.body := by
  refine ⟨rfl, rfl, ?_, ?_, ?_⟩ <;> simp [get_info]

/-- C3: when `APP_TITLE` is unset the response's `APP_TITLE` is
`"My FastAPI App"`, and when `APP_VERSION` is unset the response's
`APP_VERSION` is `"1.0"`; the lookup always succeeds because `os.getenv` is
called with these defaults. -/
theorem get_info_env_defaults (env : Env) (r : Registry) :
    (env.APP_TITLE = none →
      ("APP_TITLE", "My FastAPI App") ∈ (get_info env r).2.body) ∧
    (env.APP_VERSION = none →
      ("APP_VERSION", "1.0") ∈ (get_info env r).2.body) := by
  constructor
  · intro h
    simp [get_info, h]
  · intro h
    simp [get_info, h]

theorem get_info_env_defaults_witness :
    ("APP_TITLE", "My FastAPI App")
        ∈ (get_info ⟨none, none, "pod-1"⟩ initialRegistry).2.body ∧
    ("APP_VERSION", "1.0")
        ∈ (get_info ⟨none, none, "pod-1"⟩ initialRegistry).2.body :=
  ⟨(get_info_env_defaults ⟨none, none, "pod-1"⟩ initialRegistry).1 rfl,
   (get_info_env_defaults ⟨none, none, "pod-1"⟩ initialRegistry).2 rfl⟩

/-- C6 counterexample: at a concrete input (the initial registry), the root
handler's redirect has status code 307 — Starlette's `RedirectResponse`
default — and therefore not 302 as claimed. -/
theorem root_not_302 :
    (root initialRegistry).2.status_code = 307 ∧
    ¬ (root initialRegistry).2.status_code = 302 := by
  exact ⟨rfl, by decide⟩

/-- C6 amended: for every request, `GET /` returns a redirect response with
status code 307 (the `RedirectResponse` default, no explicit code is passed)
whose target location is `/get_info`. -/
theorem root_redirects_to_get_info (r : Registry) :
    (root r).2.status_code = 307 ∧ (root r).2.url = "/get_info" :=
  ⟨rfl, rfl⟩

/-- C8: the root handler has no side effects — the whole registry (every
counter and every gauge) is unchanged by a call. -/
theorem root_no_side_effects (r : Registry) : (root r).1 = r := rfl

/-- C4: every successful `/metrics` request returns status 200 with media
type `CONTENT_TYPE_LATEST` (`text/plain; version=0.0.4; charset=utf-8`) and a
body containing all seven metric names as substrings. -/
theorem metrics_response_shape (startTime cpu mem now : ℚ) (thr : Nat)
    (disk : ℚ) (r : Registry) :
    ∃ resp : MetricsResponse,
      (metrics startTime (OsSample.ok cpu mem now thr disk) r).2 = .ok resp ∧
      resp.status_code = 200 ∧
      resp.media_type = CONTENT_TYPE_LATEST ∧
      substrOf "get_info_requests_total" resp.body ∧
      substrOf "get_info_requests_total_by_version" resp.body ∧
      substrOf "cpu_usage_percent" resp.body ∧
      substrOf "memory_usage_percent" resp.body ∧
      substrOf "uptime_seconds" resp.body ∧
      substrOf "thread_count" resp.body ∧
      substrOf "disk_usage_percent" resp.body :=
  ⟨_, rfl, rfl, rfl,
    generate_latest_substr_total _, generate_latest_substr_by_version _,
    generate_latest_substr_cpu _, generate_latest_substr_memory _,
    generate_latest_substr_uptime _, generate_latest_substr_thread _,
    generate_latest_substr_disk _⟩

/-- C5: after a successful scrape the gauges hold exactly the sampled values,
so under the OS guarantees (psutil percentages lie in `[0,100]`, the clock is
at or after process start, at least the main thread is alive, the clock does
not run backwards between scrapes) the reported CPU and memory percentages
lie in `[0,100]`, uptime is nonnegative and non-decreasing across successive
calls, and the thread count is at least 1. -/
theorem metrics_gauge_ranges (startTime cpu mem now : ℚ) (thr : Nat)
    (disk : ℚ) (r : Registry)
    (hcpu0 : 0 ≤ cpu) (hcpu1 : cpu ≤ 100)
    (hmem0 : 0 ≤ mem) (hmem1 : mem ≤ 100)
    (hnow : startTime ≤ now) (hthr : 1 ≤ thr) :
    (0 ≤ (metrics startTime (OsSample.ok cpu mem now thr disk)
            r).1.cpu_usage_percent ∧
      (metrics startTime (OsSample.ok cpu mem now thr disk)
            r).1.cpu_usage_percent ≤ 100) ∧
    (0 ≤ (metrics startTime (OsSample.ok cpu mem now thr disk)
            r).1.memory_usage_percent ∧
      (metrics startTime (OsSample.ok cpu mem now thr disk)
            r).1.memory_usage_percent ≤ 100) ∧
    0 ≤ (metrics startTime (OsSample.ok cpu mem now thr disk)
          r).1.uptime_seconds ∧
    1 ≤ (metrics startTime (OsSample.ok cpu mem now thr disk)
          r).1.thread_count ∧
    (∀ (cpu₂ mem₂ now₂ : ℚ) (thr₂ : Nat) (disk₂ : ℚ) (r₂ : Registry),
      now ≤ now₂ →
      (metrics startTime (OsSample.ok cpu mem now thr disk)
          r).1.uptime_seconds
        ≤ (metrics startTime (OsSample.ok cpu₂ mem₂ now₂ thr₂ disk₂)
            r₂).1.uptime_seconds) :=
  ⟨⟨hcpu0, hcpu1⟩, ⟨hmem0, hmem1⟩, sub_nonneg.mpr hnow,
   by show (1 : ℚ) ≤ (thr : ℚ); exact_mod_cast hthr,
   fun _ _ now₂ _ _ _ h => sub_le_sub_right h startTime⟩

theorem metrics_gauge_ranges_witness :
    (0 ≤ (metrics 0 (OsSample.ok 50 25 10 3 40)
            initialRegistry).1.cpu_usage_percent ∧
      (metrics 0 (OsSample.ok 50 25 10 3 40)
            initialRegistry).1.cpu_usage_percent ≤ 100) ∧
    (0 ≤ (metrics 0 (OsSample.ok 50 25 10 3 40)
            initialRegistry).1.memory_usage_percent ∧
      (metrics 0 (OsSample.ok 50 25 10 3 40)
            initialRegistry).1.memory_usage_percent ≤ 100) ∧
    0 ≤ (metrics 0 (OsSample.ok 50 25 10 3 40)
          initialRegistry).1.uptime_seconds ∧
    1 ≤ (metrics 0 (OsSample.ok 50 25 10 3 40)
          initialRegistry).1.thread_count ∧
    (metrics 0 (OsSample.ok 50 25 10 3 40)
        initialRegistry).1.uptime_seconds
      ≤ (metrics 0 (OsSample.ok 60 70 12 5 80)
          initialRegistry).1.uptime_seconds := by
  have h := metrics_gauge_ranges 0 50 25 10 3 40 initialRegistry
    (by norm_num) (by norm_num) (by norm_num) (by norm_num)
    (by norm_num) (by norm_num)
  exact ⟨h.1, h.2.1, h.2.2.1, h.2.2.2.1,
    h.2.2.2.2 60 70 12 5 80 initialRegistry (by norm_num)⟩

/-- C7: if any of the five sampling calls raises, the `/metrics` handler does
not catch it — the framework turns the escaped exception into a 500 response
and the client receives none of the metrics output (no partial body). -/
theorem metrics_error_propagates (startTime : ℚ) (s : OsSample) (r : Registry)
    (h : s.hasError) :
    (metricsHTTP startTime s r).2.status_code = 500 ∧
    (metricsHTTP startTime s r).2.body = none := by
  obtain ⟨cpu, mem, now, thr, disk⟩ := s
  cases cpu with
  | error e => simp [metricsHTTP, metrics]
  | ok a =>
    cases mem with
    | error e => simp [metricsHTTP, metrics]
    | ok b =>
      cases now with
      | error e => simp [metricsHTTP, metrics]
      | ok c =>
        cases thr with
        | error e => simp [metricsHTTP, metrics]
        | ok d =>
          cases disk with
          | error e => simp [metricsHTTP, metrics]
          | ok f => simp [OsSample.hasError] at h

theorem metrics_error_propagates_witness :
    (metricsHTTP 0 ⟨.ok 1, .error "EPERM", .ok 2, .ok 3, .ok 4⟩
        initialRegistry).2.status_code = 500 ∧
    (metricsHTTP 0 ⟨.ok 1, .error "EPERM", .ok 2, .ok 3, .ok 4⟩
        initialRegistry).2.body = none :=
  metrics_error_propagates 0 _ initialRegistry
    (Or.inr (Or.inl ⟨"EPERM", rfl⟩))

/-- C9: the gauges are set strictly in the order CPU, memory, uptime, thread
count, disk; when the k-th sampling call raises, every gauge before it keeps
its freshly sampled value in the returned registry (a failed scrape still
mutates state), gauges from the failure point on are untouched, and no
response value is produced. -/
theorem metrics_failed_scrape_mutation (startTime : ℚ) (r : Registry) (e : String) :
    (∀ (s2 s3 : Except String ℚ) (s4 : Except String Nat)
        (s5 : Except String ℚ),
      metrics startTime ⟨.error e, s2, s3, s4, s5⟩ r = (r, .error e)) ∧
    (∀ (cpu : ℚ) (s3 : Except String ℚ) (s4 : Except String Nat)
        (s5 : Except String ℚ),
      metrics startTime ⟨.ok cpu, .error e, s3, s4, s5⟩ r
        = ({ r with cpu_usage_percent := cpu }, .error e)) ∧
    (∀ (cpu mem : ℚ) (s4 : Except String Nat) (s5 : Except String ℚ),
      metrics startTime ⟨.ok cpu, .ok mem, .error e, s4, s5⟩ r
        = ({ r with cpu_usage_percent := cpu,
                    memory_usage_percent := mem }, .error e)) ∧
    (∀ (cpu mem now : ℚ) (s5 : Except String ℚ),
      metrics startTime ⟨.ok cpu, .ok mem, .ok now, .error e, s5⟩ r
        = ({ r with cpu_usage_percent := cpu,
                    memory_usage_percent := mem,
                    uptime_seconds := now - startTime }, .error e)) ∧
    (∀ (cpu mem now : ℚ) (thr : Nat),
      metrics startTime ⟨.ok cpu, .ok mem, .ok now, .ok thr, .error e⟩ r
        = ({ r with cpu_usage_percent := cpu,
                    memory_usage_percent := mem,
                    uptime_seconds := now - startTime,
                    thread_count := (thr : ℚ) }, .error e)) :=
  ⟨fun _ _ _ _ => rfl, fun _ _ _ _ => rfl, fun _ _ _ _ => rfl,
   fun _ _ _ _ => rfl, fun _ _ _ _ => rfl⟩

theorem mem_labelsInc_of_mem (l : List (String × Nat)) (v w : String) (c : Nat)
    (hw : w ≠ v) (h : (w, c) ∈ l) : (w, c) ∈ labelsInc l v := by
  induction l with
  | nil => cases h
  | cons p rest ih =>
    obtain ⟨k, n⟩ := p
    by_cases hk : k = v
    · subst hk
      rcases List.mem_cons.mp h with heq | hmem
      · exact absurd (congrArg Prod.fst heq) hw
      · simp only [labelsInc, if_pos rfl]
        exact List.mem_cons_of_mem _ hmem
    · rcases List.mem_cons.mp h with heq | hmem
      · simp only [labelsInc, if_neg hk]
        exact heq ▸ List.mem_cons_self _ _
      · simp only [labelsInc, if_neg hk]
        exact List.mem_cons_of_mem _ (ih hmem)

/-- C10: the per-version counter is keyed by the `APP_VERSION` value read at
each `/get_info` request.  After requests under two distinct versions, each
version has its own child series whose count was bumped independently by 1,
both series are present in the registry, and any successful `/metrics` scrape
lists a sample line for every child series held by the registry. -/
theorem per_version_series (r : Registry) (env₁ env₂ : Env)
    (hne : env₁.APP_VERSION.getD "1.0" ≠ env₂.APP_VERSION.getD "1.0") :
    (counterValue
        ((get_info env₂
            (get_info env₁ r).1).1).get_info_requests_total_by_version
        (env₁.APP_VERSION.getD "1.0")
      = counterValue r.get_info_requests_total_by_version
          (env₁.APP_VERSION.getD "1.0") + 1) ∧
    (counterValue
        ((get_info env₂
            (get_info env₁ r).1).1).get_info_requests_total_by_version
        (env₂.APP_VERSION.getD "1.0")
      = counterValue r.get_info_requests_total_by_version
          (env₂.APP_VERSION.getD "1.0") + 1) ∧
    ((env₁.APP_VERSION.getD "1.0",
        counterValue
          ((get_info env₂
              (get_info env₁ r).1).1).get_info_requests_total_by_version
          (env₁.APP_VERSION.getD "1.0"))
      ∈ ((get_info env₂
            (get_info env₁ r).1).1).get_info_requests_total_by_version) ∧
    ((env₂.APP_VERSION.getD "1.0",
        counterValue
          ((get_info env₂
              (get_info env₁ r).1).1).get_info_requests_total_by_version
          (env₂.APP_VERSION.getD "1.0"))
      ∈ ((get_info env₂
            (get_info env₁ r).1).1).get_info_requests_total_by_version) ∧
    (∀ (r' : Registry) (v : String) (c : Nat),
      (v, c) ∈ r'.get_info_requests_total_by_version →
      ∀ (startTime cpu mem now : ℚ) (thr : Nat) (disk : ℚ),
        ∃ resp : MetricsResponse,
          (metrics startTime (OsSample.ok cpu mem now thr disk) r').2
            = .ok resp ∧
          substrOf (perVersionLine v c) resp.body) := by
  refine ⟨?_, ?_, ?_, ?_, ?_⟩
  · show counterValue
        (labelsInc
          (labelsInc r.get_info_requests_total_by_version
            (env₁.APP_VERSION.getD "1.0"))
          (env₂.APP_VERSION.getD "1.0")) (env₁.APP_VERSION.getD "1.0") = _
    rw [counterValue_labelsInc_other _ _ _ hne,
      counterValue_labelsInc_self]
  · show counterValue
        (labelsInc
          (labelsInc r.get_info_requests_total_by_version
            (env₁.APP_VERSION.getD "1.0"))
          (env₂.APP_VERSION.getD "1.0")) (env₂.APP_VERSION.getD "1.0") = _
    rw [counterValue_labelsInc_self,
      counterValue_labelsInc_other _ _ _ (Ne.symm hne)]
  · show (env₁.APP_VERSION.getD "1.0", _)
        ∈ labelsInc
            (labelsInc r.get_info_requests_total_by_version
              (env₁.APP_VERSION.getD "1.0"))
            (env₂.APP_VERSION.getD "1.0")
    rw [show counterValue
        ((get_info env₂
            (get_info env₁ r).1).1).get_info_requests_total_by_version
        (env₁.APP_VERSION.getD "1.0")
      = counterValue
          (labelsInc r.get_info_requests_total_by_version
            (env₁.APP_VERSION.getD "1.0")) (env₁.APP_VERSION.getD "1.0")
      from counterValue_labelsInc_other _ _ _ hne]
    exact mem_labelsInc_of_mem _ _ _ _ hne
      (counterValue_mem_labelsInc _ _)
  · exact counterValue_mem_labelsInc _ _
  · intro r' v c hvc startTime cpu mem now thr disk
    exact ⟨_, rfl, generate_latest_substr_perVersionLine _ v c hvc⟩

theorem per_version_series_witness :
    counterValue
        ((get_info ⟨none, some "2.0", "pod-1"⟩
            (get_info ⟨none, some "1.0", "pod-1"⟩
              initialRegistry).1).1).get_info_requests_total_by_version
        "1.0" = 1 ∧
    counterValue
        ((get_info ⟨none, some "2.0", "pod-1"⟩
            (get_info ⟨none, some "1.0", "pod-1"⟩
              initialRegistry).1).1).get_info_requests_total_by_version
        "2.0" = 1 := by
  have h := per_version_series initialRegistry
    ⟨none, some "1.0", "pod-1"⟩ ⟨none, some "2.0", "pod-1"⟩ (by decide)
  exact ⟨h.1, h.2.1⟩

end MinikubePilot
